import Mathlib

/-!
Verification development for the float8 operation-dispatch layer
(`torchao/float8/float8_ops.py`).

Tensors are modelled at value level: a shape, a dtype tag and a flat list of
rational values (row-major order).  Floating-point rounding, device placement
and memory strides are not modelled; dtype casts change only the dtype tag and
layout-normalisation operations (`contiguous`, transpose-copy-transpose) are
value-preserving.  Fallible operations return `Except String`.
Python `assert`/`raise` failures are modelled as `Except.error`.
-/

/-- Dtype tags appearing in the float8 op handlers. -/
inductive DType
  | float8e4m3
  | float8e5m2
  | uint8
  | float16
  | bfloat16
  | float32
  | float64
  deriving DecidableEq, Repr

/-- Value-level model of a torch tensor: shape, dtype tag, and the elements in
row-major flat order. -/
structure Tensor where
  shape : List Nat
  dtype : DType
  data : List ℚ
  deriving DecidableEq, Repr

/-- Number of elements implied by the shape. -/
def Tensor.numel (t : Tensor) : Nat := t.shape.prod

/-- Dtype cast: value-preserving in this model, only the tag changes. -/
def Tensor.castTo (t : Tensor) (dt : DType) : Tensor := { t with dtype := dt }

/-- `Tensor.float()`: cast to float32. -/
def Tensor.float (t : Tensor) : Tensor := t.castTo DType.float32

/-- Elementwise reciprocal (`scale.reciprocal()`). -/
def Tensor.reciprocal (t : Tensor) : Tensor := { t with data := t.data.map (·⁻¹) }

/-- `t.new_ones(())`: a rank-0 one-valued tensor of `t`'s dtype. -/
def Tensor.newOnesScalar (t : Tensor) : Tensor :=
  { shape := [], dtype := t.dtype, data := [1] }

/-- Elementwise multiplication of same-shaped tensors
(the `output *= post_inverse_scale` step; result keeps the left dtype). -/
def Tensor.mul (a b : Tensor) : Tensor :=
  { a with data := a.data.zipWith (· * ·) b.data }

/-- Data part of broadcast addition: a rank-1 right operand of length `n`
broadcasts per row over an `[m, n]` left operand, otherwise pointwise. -/
def addData (ash bsh : List Nat) (ad bd : List ℚ) : List ℚ :=
  match ash, bsh with
  | [_, n], [n2] =>
    if n2 = n then (ad.enum.map (fun p => p.2 + bd.getD (p.1 % n) 0))
    else ad.zipWith (· + ·) bd
  | _, _ => ad.zipWith (· + ·) bd

/-- Broadcast addition (the `output += post_bias` / `out + bias` steps;
result keeps the left operand's shape and dtype). -/
def Tensor.add (a b : Tensor) : Tensor :=
  { a with data := addData a.shape b.shape a.data b.data }

/-- Data part of `torch.mm` for `[m, k] x [k, n]` operands. -/
def mmData (m k n : Nat) (ad bd : List ℚ) : List ℚ :=
  (List.range (m * n)).map (fun idx =>
    (List.range k).foldl
      (fun acc l => acc + ad.getD (idx / n * k + l) 0 * bd.getD (l * n + idx % n) 0) 0)

/-- `torch.mm`: matrix product of two 2-D tensors (left dtype kept, matching
float32 x float32 -> float32 at the emulation call sites). -/
def Tensor.mm (a b : Tensor) : Tensor :=
  match a.shape, b.shape with
  | [m, k], [_, n] => { shape := [m, n], dtype := a.dtype, data := mmData m k n a.data b.data }
  | _, _ => a

/-- Data part of broadcast division by a scale tensor: rank-0 and
single-element rank-1 scales divide every element, an `[1, n]` scale divides
per column, an `[m, 1]` scale divides per row. -/
def divData (tshape sshape : List Nat) (td sd : List ℚ) : List ℚ :=
  match sshape with
  | [] => td.map (fun x => x / sd.getD 0 1)
  | [l] =>
    if l ≤ 1 then td.map (fun x => x / sd.getD 0 1)
    else td.enum.map (fun p => p.2 / sd.getD (p.1 % l) 1)
  | [1, n] => td.enum.map (fun p => p.2 / sd.getD (p.1 % n) 1)
  | [m, _] =>
    let k := tshape.getD 1 1
    let _ := m
    td.enum.map (fun p => p.2 / sd.getD (p.1 / k) 1)
  | _ => td

/-- Broadcast division `t / s` for the scale shapes used by the handlers. -/
def Tensor.divBcast (t s : Tensor) : Tensor :=
  { t with data := divData t.shape s.shape t.data s.data }

/-- Broadcast multiplication of an `[m, 1]` tensor with a `[1, n]` tensor
(the `a_inverse_scale * b_inverse_scale` outer product in the rowwise-rescale
workaround). -/
def bcastMulRowCol (r c : Tensor) : Tensor :=
  let m := r.data.length
  let n := c.data.length
  { shape := [m, n], dtype := r.dtype,
    data := (List.range (m * n)).map
      (fun idx => r.data.getD (idx / n) 0 * c.data.getD (idx % n) 0) }

/-- 2-D transpose (`aten.t`); tensors of other ranks are returned unchanged. -/
def Tensor.transpose2 (t : Tensor) : Tensor :=
  match t.shape with
  | [m, n] =>
    { shape := [n, m], dtype := t.dtype,
      data := (List.range (m * n)).map (fun idx => t.data.getD (idx % m * n + idx / m) 0) }
  | _ => t

/-- Resolve a requested view shape (entries may contain a single `-1` to be
inferred) against an element count, as `torch.Tensor.view` does: the resolved
shape must reproduce exactly `numel` elements. -/
def resolveShape (numel : Nat) (shape : List Int) : Option (List Nat) :=
  if shape.any (fun d => d < -1) then none
  else if ((shape.filter (fun d => d = -1)).length) > 1 then none
  else
    let p := ((shape.filter (fun d => d ≠ -1)).map Int.toNat).prod
    let s := shape.map (fun d => if d = -1 then (if p = 0 then 0 else numel / p) else d.toNat)
    if s.prod = numel then some s else none

/-- `aten.view`: reinterpret the flat data under a new shape. -/
def Tensor.view (t : Tensor) (s : List Int) : Except String Tensor :=
  match resolveShape t.shape.prod s with
  | some s2 => .ok { t with shape := s2 }
  | none => .error ("view of " ++ toString t.shape ++ " as " ++ toString s ++ " is not valid")

/-- `aten.index_put_` at flat positions: write `v`'s elements at `idxs`. -/
def Tensor.indexPut (t : Tensor) (idxs : List Nat) (v : Tensor) : Tensor :=
  { t with data := (idxs.zip v.data).foldl (fun d p => d.set p.1 p.2) t.data }

/-- `aten.copy_`: the destination keeps its shape and dtype and receives the
source's values (the cast into the destination dtype is value-preserving). -/
def copyRaw (dest src : Tensor) : Tensor := { dest with data := src.data }

/-- Round a dimension up to the next multiple of 16.
Modelled from the spec: zero-pad "to a hardware-friendly multiple"
(`pad_tensor_for_matmul` lives outside the sources provided). -/
def padTo16 (n : Nat) : Nat := (n + 15) / 16 * 16

/-- Modelled from the spec: zero-pad the second dimension of an `[m, k]`
tensor to a multiple of 16 (`pad_tensor_for_matmul(a, dims=1)`). -/
def Tensor.padDim1 (t : Tensor) : Tensor :=
  match t.shape with
  | [m, k] =>
    let k2 := padTo16 k
    { shape := [m, k2], dtype := t.dtype,
      data := (List.range (m * k2)).map
        (fun idx => if idx % k2 < k then t.data.getD (idx / k2 * k + idx % k2) 0 else 0) }
  | _ => t

/-- Modelled from the spec: zero-pad the first dimension of a `[k, n]`
tensor to a multiple of 16 (`pad_tensor_for_matmul(b, dims=0)`). -/
def Tensor.padDim0 (t : Tensor) : Tensor :=
  match t.shape with
  | [k, n] =>
    let k2 := padTo16 k
    { shape := [k2, n], dtype := t.dtype,
      data := (List.range (k2 * n)).map
        (fun idx => if idx / n < k then t.data.getD idx 0 else 0) }
  | _ => t

/-- `scale.repeat(n).reshape(-1, 1)`: tile the flat data `n` times and view it
as a column. -/
def Tensor.repeatReshapeCol (t : Tensor) (n : Nat) : Tensor :=
  let d := (List.replicate n t.data).flatten
  { shape := [d.length, 1], dtype := t.dtype, data := d }

/-- `scale.repeat(n).reshape(1, -1)`: tile the flat data `n` times and view it
as a row. -/
def Tensor.repeatReshapeRow (t : Tensor) (n : Nat) : Tensor :=
  let d := (List.replicate n t.data).flatten
  { shape := [1, d.length], dtype := t.dtype, data := d }

/-! ### Configuration and tensor wrapper

`Float8TrainingTensor`, `choose_scaled_mm_config` and the config types are
imported by `float8_ops.py` from a module outside the provided sources; they
are modelled from the spec (sections 3 and 4.5). -/

/-- Modelled from the spec: the gemm-role tag distinguishing which operand
position a tensor occupies in a matmul. -/
inductive GemmInputRole
  | INPUT
  | WEIGHT
  | GRAD_OUTPUT
  deriving DecidableEq, Repr

/-- Modelled from the spec: the per-direction scaled-matmul configuration
(whether the matmul is emulated in float32, whether fast accumulation is
requested, whether the inner dimension must be zero-padded). -/
structure ScaledMMConfig where
  emulate : Bool
  use_fast_accum : Bool
  pad_inner_dim : Bool
  deriving DecidableEq, Repr

/-- Modelled from the spec: a `ScaledMMConfig` per directional role. -/
structure LinearMMConfig where
  output : ScaledMMConfig
  grad_input : ScaledMMConfig
  grad_weight : ScaledMMConfig
  deriving DecidableEq, Repr

/-- The collaborator-defined merge rule `choose_scaled_mm_config`
(spec 4.5 step 1); the handlers are parametric in it. -/
abbrev ChooseCfg :=
  GemmInputRole → LinearMMConfig → GemmInputRole → LinearMMConfig → ScaledMMConfig

/-- Modelled from the spec: the `Float8TrainingTensor` value type — raw
narrow-precision data, scale, origin dtype, matmul configuration, gemm role
and the optional axiswise-scaling marker.  The wrapper presents itself to
generic code as a tensor of the origin dtype. -/
structure Float8TrainingTensor where
  data : Tensor
  scale : Tensor
  origDtype : DType
  linearMMConfig : LinearMMConfig
  gemmInputRole : GemmInputRole
  axiswiseDim : Option Int := none
  deriving DecidableEq, Repr

/-- Modelled from the spec: dequantization `to_original_precision` —
data cast to the origin dtype, divided by (i.e. multiplied by the inverse of)
the scale. -/
def Float8TrainingTensor.to_original_precision (t : Float8TrainingTensor) : Tensor :=
  (t.data.castTo t.origDtype).divBcast t.scale

/-- The wrapper's presented dtype (`fp8_tensor.dtype`): the origin dtype. -/
def Float8TrainingTensor.dtype (t : Float8TrainingTensor) : DType := t.origDtype

/-- The wrapper's presented shape (`fp8_tensor.shape`): the raw data's shape. -/
def Float8TrainingTensor.shape (t : Float8TrainingTensor) : List Nat := t.data.shape

/-- The accelerated primitive `torch._scaled_mm`, an external collaborator:
arguments are `a_data`, `b_data`, `scale_a`, `scale_b`, `bias?`,
`scale_result?`, `out_dtype`, `use_fast_accum`. -/
abbrev ScaledMMPrim :=
  Tensor → Tensor → Tensor → Tensor → Option Tensor → Option Tensor → DType → Bool → Tensor

/-- `addmm_float8_unwrapped` (float8_ops.py lines 28-91), parametric in the
accelerated primitive `prim`: computes inverse scales, applies the
rowwise-rescale workaround (neutral one-valued scales plus a post-multiply),
the float16/float32-output workaround (bfloat16 intermediate) and the
bias-with-fp32-output workaround (bias as a post-add), then calls the
primitive. -/
def addmm_float8_unwrapped (prim : ScaledMMPrim)
    (a_data a_scale b_data b_scale : Tensor) (output_dtype : DType)
    (output_scale bias : Option Tensor) (use_fast_accum : Bool) : Tensor :=
  let a_inverse_scale := a_scale.reciprocal
  let b_inverse_scale := b_scale.reciprocal
  let is_rowwise_scaling :=
    a_scale.shape = [a_data.shape.getD 0 0, 1] ∧ b_scale.shape = [1, b_data.shape.getD 1 0]
  -- rowwise-rescale workaround; the source re-reads `a_inverse_scale` (already
  -- replaced by ones) to build `b_inverse_scale`, so both become one-valued
  -- scalars of `a_inverse_scale`'s dtype
  let post_inverse_scale :=
    if is_rowwise_scaling ∧ use_fast_accum = false then
      some (bcastMulRowCol a_inverse_scale b_inverse_scale)
    else none
  let a_inverse_scale :=
    if is_rowwise_scaling ∧ use_fast_accum = false then
      a_inverse_scale.newOnesScalar
    else a_inverse_scale
  let b_inverse_scale :=
    if is_rowwise_scaling ∧ use_fast_accum = false then
      a_inverse_scale.newOnesScalar
    else b_inverse_scale
  let orig_dtype := output_dtype
  let output_dtype :=
    if (orig_dtype = DType.float16 ∨ orig_dtype = DType.float32) ∧ is_rowwise_scaling then
      DType.bfloat16
    else output_dtype
  let post_bias := if output_dtype = DType.float32 then bias else none
  let bias := if output_dtype = DType.float32 then none else bias
  let output :=
    prim a_data b_data a_inverse_scale b_inverse_scale bias output_scale output_dtype
      use_fast_accum
  let output :=
    match post_inverse_scale with
    | some p => output.mul p
    | none => output
  let output :=
    match post_bias with
    | some pb => output.add pb
    | none => output
  if (orig_dtype = DType.float16 ∨ orig_dtype = DType.float32) ∧ is_rowwise_scaling then
    output.castTo orig_dtype
  else output

/-- `preprocess_addmm` (lines 322-360): padding of the contraction dimension
when configured (with the matching-inner-dims assert), layout normalisation
(value-preserving here, strides are not modelled), and granularity
reconciliation of a tensorwise scale against an axiswise one. -/
def preprocess_addmm (chooseCfg : ChooseCfg) (a b : Float8TrainingTensor) :
    Except String (Tensor × Tensor × Tensor × Tensor) :=
  let scaled_mm_config :=
    chooseCfg a.gemmInputRole a.linearMMConfig b.gemmInputRole b.linearMMConfig
  if scaled_mm_config.pad_inner_dim ∧ ¬(a.data.shape.getD 1 0 = b.data.shape.getD 0 0) then
    .error ("Inner dims must match for mm, got " ++ toString (a.data.shape.getD 1 0)
      ++ " and " ++ toString (b.data.shape.getD 0 0))
  else
    let a_data := if scaled_mm_config.pad_inner_dim then a.data.padDim1 else a.data
    let b_data := if scaled_mm_config.pad_inner_dim then b.data.padDim0 else b.data
    let a_scale :=
      if a.axiswiseDim = none ∧ ¬(b.axiswiseDim = none) then
        a.scale.repeatReshapeCol (a_data.shape.getD 0 0)
      else a.scale
    let b_scale :=
      if ¬(a.axiswiseDim = none) ∧ b.axiswiseDim = none then
        b.scale.repeatReshapeRow (b_data.shape.getD 1 0)
      else b.scale
    .ok (a_data, a_scale, b_data, b_scale)

/-- `float8_mm` (lines 363-395): preprocess, then either the float32 emulation
path on the raw (unpadded) data and scales, or the accelerated primitive;
output dtype is the left operand's origin dtype. -/
def float8_mm (chooseCfg : ChooseCfg) (prim : ScaledMMPrim)
    (a b : Float8TrainingTensor) : Except String Tensor :=
  match preprocess_addmm chooseCfg a b with
  | .error e => .error e
  | .ok (a_data, a_scale, b_data, b_scale) =>
    let output_dtype := a.origDtype
    let scaled_mm_config :=
      chooseCfg a.gemmInputRole a.linearMMConfig b.gemmInputRole b.linearMMConfig
    if scaled_mm_config.emulate then
      .ok (((a.data.float.divBcast a.scale).mm (b.data.float.divBcast b.scale)).castTo
        output_dtype)
    else
      .ok (addmm_float8_unwrapped prim a_data a_scale b_data b_scale output_dtype
        none none scaled_mm_config.use_fast_accum)

/-- `float8_addmm` (lines 398-432): like `float8_mm` with a full-precision
bias whose dtype must equal the output dtype; the emulation path adds the bias
after the emulated product, the accelerated path fuses it into the primitive
call. -/
def float8_addmm (chooseCfg : ChooseCfg) (prim : ScaledMMPrim)
    (bias : Tensor) (a b : Float8TrainingTensor) : Except String Tensor :=
  match preprocess_addmm chooseCfg a b with
  | .error e => .error e
  | .ok (a_data, a_scale, b_data, b_scale) =>
    let output_dtype := a.origDtype
    if ¬(bias.dtype = output_dtype) then
      .error "bias dtype must match output dtype"
    else
      let scaled_mm_config :=
        chooseCfg a.gemmInputRole a.linearMMConfig b.gemmInputRole b.linearMMConfig
      if scaled_mm_config.emulate then
        .ok ((((a.data.float.divBcast a.scale).mm (b.data.float.divBcast b.scale)).castTo
          output_dtype).add bias)
      else
        .ok (addmm_float8_unwrapped prim a_data a_scale b_data b_scale output_dtype
          none (some bias) scaled_mm_config.use_fast_accum)

/-! ### Shape, copy and registry handlers -/

/-- `_assert_tensorwise_scale` (lines 94-99): the scale must have rank 0 or 1. -/
def tensorwiseScale (scale : Tensor) : Prop :=
  scale.shape.length = 0 ∨ scale.shape.length = 1

instance (scale : Tensor) : Decidable (tensorwiseScale scale) := by
  unfold tensorwiseScale; infer_instance

/-- `float8_desugar_op` (lines 117-136), parametric in the delegated raw-data
operation: requires tensorwise scaling, applies the operation to the raw data
only, and rewraps with the same scale, origin dtype, config and role. -/
def float8_desugar_op (f : Tensor → Except String Tensor) (t : Float8TrainingTensor) :
    Except String Float8TrainingTensor :=
  if tensorwiseScale t.scale then
    match f t.data with
    | .ok nd => .ok ⟨nd, t.scale, t.origDtype, t.linearMMConfig, t.gemmInputRole, none⟩
    | .error e => .error e
  else .error "aten op with axiswise scaling is not supported yet"

/-- `float8_transpose` (lines 156-187) for the `aten.t` /
`aten.transpose.int` ops (`isTransposeInt` selects the latter, whose
tensorwise-scale assert applies; the 2-D transpose models both at the shapes
the handler supports).  The source updates `new_axiswise_dim` with two
comparison statements (`==`) whose results are discarded, so the marker stays
`old_axiswise_dim`. -/
def float8_transpose (isTransposeInt : Bool) (t : Float8TrainingTensor) :
    Except String Float8TrainingTensor :=
  let new_data := t.data.transpose2
  let new_scale := if t.scale.shape.length > 1 then t.scale.transpose2 else t.scale
  if isTransposeInt ∧ ¬tensorwiseScale t.scale then
    .error "aten.transpose.int with axiswise scaling is not supported yet"
  else
    let new_axiswise_dim := t.axiswiseDim
    .ok ⟨new_data, new_scale, t.origDtype, t.linearMMConfig, t.gemmInputRole,
      new_axiswise_dim⟩

/-- The `AssertionError` message of the unsupported-axiswise-reshape branch of
`float8_view` (lines 240-242), naming the attempted shapes and axis. -/
def float8ViewErrMsg (t : Float8TrainingTensor) (new_shape : List Int) : String :=
  "aten.view with axiswise scaling and t.shape " ++ toString t.data.shape
    ++ " t.scale.shape " ++ toString t.scale.shape
    ++ " t.axiswise_dim " ++ toString t.axiswiseDim
    ++ " new_shape " ++ toString new_shape
    ++ " is not supported yet."

/-- `float8_view` (lines 190-242): same-shape short-circuit, tensorwise
delegation to `float8_desugar_op`, the two supported 2-D axiswise reshapes
(axiswise along axis 0 keeps the marker and reshapes the scale to
`[1, new_shape[-1]]`; axiswise along the last axis reshapes the scale to
`[new_shape[0], 1]` and normalises the marker to `-1`), and the unsupported
branch raising the message above. -/
def float8_view (t : Float8TrainingTensor) (new_shape : List Int) :
    Except String Float8TrainingTensor :=
  if new_shape = t.data.shape.map Int.ofNat then
    match t.data.view new_shape with
    | .ok nd => .ok ⟨nd, t.scale, t.origDtype, t.linearMMConfig, t.gemmInputRole,
        t.axiswiseDim⟩
    | .error e => .error e
  else if t.scale.shape.length < 2 then
    float8_desugar_op (fun d => d.view new_shape) t
  else if new_shape.length = 2 ∧ t.axiswiseDim = some 0 then
    match t.data.view new_shape with
    | .error e => .error e
    | .ok nd =>
      match t.scale.view [1, new_shape.getD 1 0] with
      | .error e => .error e
      | .ok ns => .ok ⟨nd, ns, t.origDtype, t.linearMMConfig, t.gemmInputRole,
          t.axiswiseDim⟩
  else if new_shape.length = 2 ∧
      (t.axiswiseDim = some (-1) ∨ t.axiswiseDim = some ((t.data.shape.length : Int) - 1)) then
    match t.data.view new_shape with
    | .error e => .error e
    | .ok nd =>
      match t.scale.view [new_shape.getD 0 0, 1] with
      | .error e => .error e
      | .ok ns => .ok ⟨nd, ns, t.origDtype, t.linearMMConfig, t.gemmInputRole, some (-1)⟩
  else .error (float8ViewErrMsg t new_shape)

/-- The per-chunk validation-and-collection loop of `float8_cat`
(lines 274-295): every chunk must match the first chunk's origin dtype, scale,
mm config, raw dtype and gemm role and be tensorwise scaled; the raw data
(bit-reinterpreted as uint8, a tag-level no-op here) is collected in order. -/
def catChecks (orig : DType) (scale : Tensor) (cfg : LinearMMConfig) (fdt : DType)
    (role : GemmInputRole) : List Float8TrainingTensor → Except String (List ℚ)
  | [] => .ok []
  | c :: rest =>
    if ¬(c.origDtype = orig) then
      .error "Expecting all chunks to be of the same dtype"
    else if ¬(c.scale = scale) then
      .error "Expecting all chunks to have thee same scale as a result of a split"
    else if ¬(c.linearMMConfig = cfg) then
      .error "Expecting all chunks to have thee same mm config as a result of a split"
    else if ¬(c.data.dtype = fdt) then
      .error "Expecting all chunks to be of the same dtype as a result of a split"
    else if ¬(c.gemmInputRole = role) then
      .error "Expecting all chunks to have the same gemm_input_role"
    else if ¬tensorwiseScale c.scale then
      .error "aten.cat with axiswise scaling is not supported yet"
    else
      match catChecks orig scale cfg fdt role rest with
      | .ok ds => .ok (c.data.data ++ ds)
      | .error e => .error e

/-- Shape of a concatenation along dimension 0. -/
def catShape0 (shapes : List (List Nat)) : List Nat :=
  match shapes with
  | [] => []
  | s0 :: _ => (shapes.map (fun s => s.getD 0 0)).sum :: s0.drop 1

/-- `float8_cat` (lines 264-298) at the default concatenation dimension 0:
validates every chunk against the first, concatenates the raw data through the
uint8 bit-reinterpretation round trip, and rewraps with the shared metadata. -/
def float8_cat (ts : List Float8TrainingTensor) : Except String Float8TrainingTensor :=
  match ts with
  | [] => .error "cat of an empty tensor list"
  | t0 :: _ =>
    match catChecks t0.origDtype t0.scale t0.linearMMConfig t0.data.dtype
        t0.gemmInputRole ts with
    | .error e => .error e
    | .ok ds =>
      let new_data : Tensor :=
        { shape := catShape0 (ts.map (fun c => c.data.shape)),
          dtype := t0.data.dtype, data := ds }
      .ok ⟨new_data, t0.scale, t0.origDtype, t0.linearMMConfig, t0.gemmInputRole, none⟩

/-- `index_put_fp8` (lines 510-530): requires a tensorwise-scaled target,
equal scales, equal presented dtypes (the wrapper presents the origin dtype)
and equal origin dtypes, then writes the raw values and rewraps with the
target's metadata.  `_linear_mm_config` and `_gemm_input_role` are not
validated. -/
def index_put_fp8 (self values : Float8TrainingTensor) (indices : List Nat) :
    Except String Float8TrainingTensor :=
  if ¬tensorwiseScale self.scale then
    .error "aten.index_put_ with axiswise scaling is not supported yet"
  else if ¬(self.scale = values.scale) then
    .error "assert fp8_self scale eq fp8_values scale failed"
  else if ¬(self.dtype = values.dtype) then
    .error "assert fp8_self dtype eq fp8_values dtype failed"
  else if ¬(self.origDtype = values.origDtype) then
    .error "assert fp8_self orig_dtype eq fp8_values orig_dtype failed"
  else
    .ok ⟨self.data.indexPut indices values.data, self.scale, self.origDtype,
      self.linearMMConfig, self.gemmInputRole, none⟩

/-- A `copy_` argument: either an ordinary high-precision tensor or a
`Float8TrainingTensor`. -/
inductive MaybeF8
  | hp (t : Tensor)
  | fp8 (t : Float8TrainingTensor)
  deriving DecidableEq, Repr

/-- `copy_fp8` (lines 533-579): a narrow source copies into a high-precision
destination after dequantization; two narrow tensors copy only when origin
dtype, scale, mm config, raw dtype and gemm role all match; every other
combination is unsupported. -/
def copy_fp8 (self src : MaybeF8) : Except String MaybeF8 :=
  match self, src with
  | .hp d, .fp8 s =>
    if tensorwiseScale s.scale then
      .ok (.hp (copyRaw d s.to_original_precision))
    else .error "aten.copy_ with axiswise scaling is not supported yet"
  | .fp8 d, .fp8 s =>
    if ¬tensorwiseScale s.scale then
      .error "aten.copy_ with axiswise scaling is not supported yet"
    else if ¬(d.origDtype = s.origDtype) then
      .error "Expecting both Float8TrainingTensors to be of the same dtype"
    else if ¬(d.scale = s.scale) then
      .error "Expecting both Float8TrainingTensors to have thee same scale"
    else if ¬(d.linearMMConfig = s.linearMMConfig) then
      .error "Expecting both Float8TrainingTensors to have thee same mm config"
    else if ¬(d.data.dtype = s.data.dtype) then
      .error "Expecting both Float8TrainingTensors to be of the same dtypet"
    else if ¬(d.gemmInputRole = s.gemmInputRole) then
      .error "Expecting both Float8TrainingTensors to have the same gemm_input_role"
    else
      .ok (.fp8 ⟨copyRaw d.data s.data, d.scale, d.origDtype, d.linearMMConfig,
        d.gemmInputRole, none⟩)
  | _, _ => .error "Unsupported semantics for copy_ in Float8TrainingTensor"

/-! ### Operation registry -/

/-- Operation identities (`aten` op overloads), opaque here. -/
abbrev OpId := Nat

/-- Handler identities, opaque here. -/
abbrev Handler := Nat

/-- The float8 op table: a mapping from operation identity to handler. -/
abbrev OpsTable := List (OpId × Handler)

/-- The duplicate-registration message of `implements` (lines 108-110),
naming the conflicting op and the handler it is already registered to. -/
def implementsErrMsg (op : OpId) (g : Handler) : String :=
  "Float8 op " ++ toString op ++ " is already registered to " ++ toString g

/-- The registration loop of `implements` (lines 102-114): for each op in
order, fail if it is already in the table, otherwise add the mapping. -/
def implementsRegister (f : Handler) : List OpId → OpsTable → Except String OpsTable
  | [], table => .ok table
  | op :: rest, table =>
    match table.lookup op with
    | some g => .error (implementsErrMsg op g)
    | none => implementsRegister f rest ((op, f) :: table)

instance {ε α : Type} [DecidableEq ε] [DecidableEq α] : DecidableEq (Except ε α)
  | .error e1, .error e2 =>
    if h : e1 = e2 then isTrue (h ▸ rfl) else isFalse (fun hh => h (by cases hh; rfl))
  | .error _, .ok _ => isFalse (fun hh => Except.noConfusion hh)
  | .ok _, .error _ => isFalse (fun hh => Except.noConfusion hh)
  | .ok a1, .ok a2 =>
    if h : a1 = a2 then isTrue (h ▸ rfl) else isFalse (fun hh => h (by cases hh; rfl))

/-- A handler invocation raised an error. -/
def resultIsError {α : Type} : Except String α → Prop
  | .error _ => True
  | .ok _ => False

instance {α : Type} (r : Except String α) : Decidable (resultIsError r) :=
  match r with
  | .error _ => isTrue trivial
  | .ok _ => isFalse id

/-! ### Example fixtures used by witnesses and counterexamples -/

/-- An all-false `ScaledMMConfig`. -/
def mmcOff : ScaledMMConfig := ⟨false, false, false⟩

/-- An emulating `ScaledMMConfig`. -/
def mmcEmu : ScaledMMConfig := ⟨true, false, false⟩

/-- A `LinearMMConfig` with all-false entries. -/
def linOff : LinearMMConfig := ⟨mmcOff, mmcOff, mmcOff⟩

/-- A `LinearMMConfig` whose entries emulate. -/
def linEmu : LinearMMConfig := ⟨mmcEmu, mmcEmu, mmcEmu⟩

/-- A rank-0 float32 scale tensor. -/
def scalarScale (q : ℚ) : Tensor := ⟨[], DType.float32, [q]⟩

/-! ### Helper lemmas -/

theorem implementsRegister_fresh (f : Handler) :
    ∀ (ops : List OpId) (table : OpsTable), ops.Nodup →
    (∀ op ∈ ops, table.lookup op = none) →
    ∃ t2, implementsRegister f ops table = .ok t2 ∧
      (∀ op ∈ ops, t2.lookup op = some f) ∧
      ∀ q, q ∉ ops → t2.lookup q = table.lookup q := by
  intro ops
  induction ops with
  | nil =>
    intro table _ _
    exact ⟨table, rfl, by simp, fun q _ => rfl⟩
  | cons op rest ih =>
    intro table hnd hfresh
    have hop : table.lookup op = none := hfresh op (List.mem_cons_self op rest)
    obtain ⟨hnotin, hnd2⟩ := List.nodup_cons.mp hnd
    have hfresh2 : ∀ o ∈ rest, ((op, f) :: table).lookup o = none := by
      intro o ho
      have hne : o ≠ op := fun h => hnotin (h ▸ ho)
      have hbe : (o == op) = false := beq_eq_false_iff_ne.mpr hne
      simpa [List.lookup, hbe] using hfresh o (List.mem_cons_of_mem _ ho)
    obtain ⟨t2, heq, hmem, hpres⟩ := ih ((op, f) :: table) hnd2 hfresh2
    refine ⟨t2, ?_, ?_, ?_⟩
    · simpa [implementsRegister, hop] using heq
    · intro o ho
      rcases List.mem_cons.mp ho with h | h
      · subst h
        rw [hpres o hnotin]
        simp [List.lookup]
      · exact hmem o h
    · intro q hq
      have hq1 : q ≠ op := fun h => hq (h ▸ List.mem_cons_self op rest)
      have hq2 : q ∉ rest := fun h => hq (List.mem_cons_of_mem _ h)
      have hbe : (q == op) = false := beq_eq_false_iff_ne.mpr hq1
      rw [hpres q hq2]
      simp [List.lookup, hbe]

theorem implementsRegister_conflict (f : Handler) :
    ∀ (ops : List OpId) (table : OpsTable), ops.Nodup →
    (∃ op ∈ ops, (table.lookup op).isSome) →
    ∃ op g, op ∈ ops ∧ table.lookup op = some g ∧
      implementsRegister f ops table = .error (implementsErrMsg op g) := by
  intro ops
  induction ops with
  | nil =>
    intro table _ h
    simp at h
  | cons op rest ih =>
    intro table hnd hex
    cases hlk : table.lookup op with
    | some g =>
      exact ⟨op, g, List.mem_cons_self op rest, hlk, by simp [implementsRegister, hlk]⟩
    | none =>
      obtain ⟨hnotin, hnd2⟩ := List.nodup_cons.mp hnd
      obtain ⟨o, ho, hsome⟩ := hex
      rcases List.mem_cons.mp ho with h | h
      · subst h
        rw [hlk] at hsome
        simp at hsome
      · have hex2 : ∃ o2 ∈ rest, (((op, f) :: table).lookup o2).isSome := by
          refine ⟨o, h, ?_⟩
          by_cases heq : o = op
          · have hbe : (o == op) = true := beq_iff_eq.mpr heq
            simp [List.lookup, hbe]
          · have hbe : (o == op) = false := beq_eq_false_iff_ne.mpr heq
            simpa [List.lookup, hbe] using hsome
        obtain ⟨o2, g2, ho2, hlk2, herr⟩ := ih ((op, f) :: table) hnd2 hex2
        have hne : o2 ≠ op := fun hh => hnotin (hh ▸ ho2)
        have hbe : (o2 == op) = false := beq_eq_false_iff_ne.mpr hne
        refine ⟨o2, g2, List.mem_cons_of_mem _ ho2, ?_, ?_⟩
        · rw [← hlk2]
          simp [List.lookup, hbe]
        · simpa [implementsRegister, hlk] using herr

/-! ### Claim theorems -/

/-- C9: registering a handler for a set of operation ids fails with the
duplicate-registration message naming the conflicting op (and its existing
handler) whenever one of the ids is already registered, and never overwrites
the existing mapping; registering only fresh ids adds exactly those entries
and leaves every other id's mapping unchanged. -/
theorem c9_register_once (f : Handler) (ops : List OpId) (table : OpsTable)
    (hnd : ops.Nodup) :
    ((∀ op ∈ ops, table.lookup op = none) →
      ∃ t2, implementsRegister f ops table = .ok t2 ∧
        (∀ op ∈ ops, t2.lookup op = some f) ∧
        ∀ q, q ∉ ops → t2.lookup q = table.lookup q) ∧
    ((∃ op ∈ ops, (table.lookup op).isSome) →
      ∃ op g, op ∈ ops ∧ table.lookup op = some g ∧
        implementsRegister f ops table = .error (implementsErrMsg op g)) :=
  ⟨implementsRegister_fresh f ops table hnd, implementsRegister_conflict f ops table hnd⟩

/-- Witness for C9: registering handler 7 for fresh ids 1 and 2 over a table
holding id 5 succeeds with exactly those entries added, and registering over a
table already holding id 2 fails naming id 2. -/
theorem c9_register_once_witness :
    (∃ t2, implementsRegister 7 [1, 2] [(5, 9)] = .ok t2 ∧
      (∀ op ∈ [1, 2], t2.lookup op = some 7) ∧
      ∀ q, q ∉ [1, 2] → t2.lookup q = [(5, 9)].lookup q) ∧
    (∃ op g, op ∈ [1, 2] ∧ [(2, 9)].lookup op = some g ∧
      implementsRegister 7 [1, 2] [(2, 9)] = .error (implementsErrMsg op g)) :=
  ⟨(c9_register_once 7 [1, 2] [(5, 9)] (by decide)).1 (by decide),
   (c9_register_once 7 [1, 2] [(2, 9)] (by decide)).2 ⟨2, by decide⟩⟩

/-- C5: transposing a `Float8TrainingTensor` carrying an axiswise marker
(`aten.t`) transposes the data and the 2-D scale but returns the marker
unchanged — the source's axis-swap statements are comparisons, not
assignments, so the intended 0-to-last swap never takes effect. -/
theorem c5_transpose_marker_unchanged (t : Float8TrainingTensor)
    (hax : t.axiswiseDim ≠ none) (hs : t.scale.shape.length = 2) :
    float8_transpose false t =
      .ok ⟨t.data.transpose2, t.scale.transpose2, t.origDtype, t.linearMMConfig,
        t.gemmInputRole, t.axiswiseDim⟩ := by
  have _ := hax
  unfold float8_transpose
  simp [hs]

/-- Witness for C5: a 2-by-2 tensor with axiswise marker 0 keeps marker 0
after transpose while its scale is transposed. -/
theorem c5_transpose_marker_unchanged_witness :
    float8_transpose false
      ⟨⟨[2, 2], DType.float8e4m3, [1, 2, 3, 4]⟩, ⟨[2, 1], DType.float32, [2, 3]⟩,
        DType.bfloat16, linOff, GemmInputRole.INPUT, some 0⟩ =
      .ok ⟨(⟨[2, 2], DType.float8e4m3, [1, 2, 3, 4]⟩ : Tensor).transpose2,
        (⟨[2, 1], DType.float32, [2, 3]⟩ : Tensor).transpose2,
        DType.bfloat16, linOff, GemmInputRole.INPUT, some 0⟩ :=
  c5_transpose_marker_unchanged
    ⟨⟨[2, 2], DType.float8e4m3, [1, 2, 3, 4]⟩, ⟨[2, 1], DType.float32, [2, 3]⟩,
      DType.bfloat16, linOff, GemmInputRole.INPUT, some 0⟩
    (by simp) (by simp)

theorem catChecks_ok_mem (orig : DType) (scale : Tensor) (cfg : LinearMMConfig)
    (fdt : DType) (role : GemmInputRole) :
    ∀ (ts : List Float8TrainingTensor) (ds : List ℚ),
    catChecks orig scale cfg fdt role ts = .ok ds →
    ∀ c ∈ ts, c.origDtype = orig ∧ c.scale = scale ∧ c.linearMMConfig = cfg ∧
      c.data.dtype = fdt ∧ c.gemmInputRole = role ∧ tensorwiseScale c.scale := by
  intro ts
  induction ts with
  | nil =>
    intro ds _ c hc
    simp at hc
  | cons c0 rest ih =>
    intro ds hok c hc
    unfold catChecks at hok
    split_ifs at hok with h1 h2 h3 h4 h5 h6
    rcases hr : catChecks orig scale cfg fdt role rest with e | ds2
    · rw [hr] at hok
      exact absurd hok (by simp)
    · rcases List.mem_cons.mp hc with h | h
      · subst h
        exact ⟨h1, h2, h3, h4, h5, h6⟩
      · exact ih ds2 hr c h

theorem catChecks_ok_of_eq (orig : DType) (scale : Tensor) (cfg : LinearMMConfig)
    (fdt : DType) (role : GemmInputRole) :
    ∀ ts : List Float8TrainingTensor,
    (∀ c ∈ ts, c.origDtype = orig ∧ c.scale = scale ∧ c.linearMMConfig = cfg ∧
      c.data.dtype = fdt ∧ c.gemmInputRole = role ∧ tensorwiseScale c.scale) →
    catChecks orig scale cfg fdt role ts = .ok ((ts.map (fun c => c.data.data)).flatten) := by
  intro ts
  induction ts with
  | nil =>
    intro _
    simp [catChecks]
  | cons c0 rest ih =>
    intro hall
    obtain ⟨e1, e2, e3, e4, e5, e6⟩ := hall c0 (List.mem_cons_self c0 rest)
    have hrest := ih (fun c hc => hall c (List.mem_cons_of_mem _ hc))
    have e7 : tensorwiseScale scale := e2 ▸ e6
    unfold catChecks
    simp [e1, e2, e3, e4, e5, e6, e7, hrest]

/-- C7: copying a full-precision source into a `Float8TrainingTensor`
destination raises the unsupported-semantics error, while copying a
tensorwise-scaled `Float8TrainingTensor` source into a full-precision
destination succeeds and stores the dequantized value (data cast to the
origin dtype and divided by the scale). -/
theorem c7_copy_direction (d : Float8TrainingTensor) (src : Tensor)
    (dest : Tensor) (s : Float8TrainingTensor) (hs : tensorwiseScale s.scale) :
    copy_fp8 (.fp8 d) (.hp src) =
      .error "Unsupported semantics for copy_ in Float8TrainingTensor" ∧
    copy_fp8 (.hp dest) (.fp8 s) =
      .ok (.hp (copyRaw dest ((s.data.castTo s.origDtype).divBcast s.scale))) := by
  constructor
  · rfl
  · unfold copy_fp8 Float8TrainingTensor.to_original_precision
    simp [hs]

/-- Witness for C7 at concrete tensors: fp8-destination copy errors, and a
scale-1/2 source dequantizes (multiplies by 2) into the hp destination. -/
theorem c7_copy_direction_witness :
    copy_fp8
      (.fp8 ⟨⟨[1], DType.float8e4m3, [3]⟩, scalarScale 2, DType.bfloat16, linOff,
        GemmInputRole.INPUT, none⟩)
      (.hp ⟨[1], DType.bfloat16, [7]⟩) =
      .error "Unsupported semantics for copy_ in Float8TrainingTensor" ∧
    copy_fp8 (.hp ⟨[1], DType.bfloat16, [7]⟩)
      (.fp8 ⟨⟨[1], DType.float8e4m3, [3]⟩, scalarScale (1/2), DType.bfloat16, linOff,
        GemmInputRole.INPUT, none⟩) =
      .ok (.hp (copyRaw ⟨[1], DType.bfloat16, [7]⟩
        (((⟨[1], DType.float8e4m3, [3]⟩ : Tensor).castTo DType.bfloat16).divBcast
          (scalarScale (1/2))))) :=
  c7_copy_direction
    ⟨⟨[1], DType.float8e4m3, [3]⟩, scalarScale 2, DType.bfloat16, linOff,
      GemmInputRole.INPUT, none⟩
    ⟨[1], DType.bfloat16, [7]⟩
    ⟨[1], DType.bfloat16, [7]⟩
    ⟨⟨[1], DType.float8e4m3, [3]⟩, scalarScale (1/2), DType.bfloat16, linOff,
      GemmInputRole.INPUT, none⟩
    (by decide)

/-- Counterexample for C4: in-place index-assignment accepts two
`Float8TrainingTensors` that differ in both `mm_config` and `gemm_role`
(sharing origin dtype, scale and raw dtype), returning a result instead of
failing — so the non-matmul binary handlers do not all require identical
`mm_config` and `gemm_role`. -/
theorem c4_checks_counterexample :
    index_put_fp8
      ⟨⟨[2], DType.float8e4m3, [1, 2]⟩, scalarScale 2, DType.bfloat16, linOff,
        GemmInputRole.INPUT, none⟩
      ⟨⟨[1], DType.float8e4m3, [5]⟩, scalarScale 2, DType.bfloat16, linEmu,
        GemmInputRole.WEIGHT, none⟩
      [0] =
      .ok ⟨⟨[2], DType.float8e4m3, [5, 2]⟩, scalarScale 2, DType.bfloat16, linOff,
        GemmInputRole.INPUT, none⟩ ∧
    linOff ≠ linEmu ∧ GemmInputRole.INPUT ≠ GemmInputRole.WEIGHT := by
  constructor
  · decide
  · exact ⟨by decide, by decide⟩

/-- C4 (amended): narrow-to-narrow copy and concatenation fail unless the
operands share identical origin_dtype, scale, mm_config, raw dtype and
gemm_role; in-place index-assignment validates only the scale, the presented
dtype and the origin dtype — it fails when those differ but never consults
`mm_config` or `gemm_role`. -/
theorem c4_checks_amended :
    (∀ d s : Float8TrainingTensor,
      ¬(d.origDtype = s.origDtype ∧ d.scale = s.scale ∧
        d.linearMMConfig = s.linearMMConfig ∧ d.data.dtype = s.data.dtype ∧
        d.gemmInputRole = s.gemmInputRole) →
      resultIsError (copy_fp8 (.fp8 d) (.fp8 s))) ∧
    (∀ t1 t2 : Float8TrainingTensor,
      ¬(t2.origDtype = t1.origDtype ∧ t2.scale = t1.scale ∧
        t2.linearMMConfig = t1.linearMMConfig ∧ t2.data.dtype = t1.data.dtype ∧
        t2.gemmInputRole = t1.gemmInputRole) →
      resultIsError (float8_cat [t1, t2])) ∧
    (∀ (self values : Float8TrainingTensor) (idx : List Nat),
      ¬(self.scale = values.scale ∧ self.origDtype = values.origDtype) →
      resultIsError (index_put_fp8 self values idx)) ∧
    (∀ (self values : Float8TrainingTensor) (idx : List Nat)
      (cfg2 : LinearMMConfig) (role2 : GemmInputRole),
      index_put_fp8 self
        { values with linearMMConfig := cfg2, gemmInputRole := role2 } idx =
      index_put_fp8 self values idx) := by
  refine ⟨?_, ?_, ?_, ?_⟩
  · intro d s h
    dsimp only [copy_fp8]
    split_ifs with h1 h2 h3 h4 h5 h6
    all_goals try trivial
    exact absurd ⟨h2, h3, h4, h5, h6⟩ h
  · intro t1 t2 h
    rcases hc : catChecks t1.origDtype t1.scale t1.linearMMConfig t1.data.dtype
        t1.gemmInputRole [t1, t2] with e | ds
    · simp [float8_cat, hc, resultIsError]
    · obtain ⟨e1, e2, e3, e4, e5, _⟩ :=
        catChecks_ok_mem _ _ _ _ _ [t1, t2] ds hc t2 (by simp)
      exact absurd ⟨e1, e2, e3, e4, e5⟩ h
  · intro self values idx h
    dsimp only [index_put_fp8]
    split_ifs with h1 h2 h3 h4
    all_goals try trivial
    exact absurd ⟨h2, h4⟩ h
  · intro self values idx cfg2 role2
    rfl

/-- Witness for C4 (amended) at concrete tensors: each unless-condition
violation makes the corresponding handler fail, and index-assignment gives
the same result after swapping the values operand's config and role. -/
theorem c4_checks_amended_witness :
    resultIsError (copy_fp8
      (.fp8 ⟨⟨[1], DType.float8e4m3, [1]⟩, scalarScale 2, DType.bfloat16, linOff,
        GemmInputRole.INPUT, none⟩)
      (.fp8 ⟨⟨[1], DType.float8e4m3, [1]⟩, scalarScale 3, DType.bfloat16, linOff,
        GemmInputRole.INPUT, none⟩)) ∧
    resultIsError (float8_cat
      [⟨⟨[1], DType.float8e4m3, [1]⟩, scalarScale 2, DType.bfloat16, linOff,
        GemmInputRole.INPUT, none⟩,
       ⟨⟨[1], DType.float8e4m3, [1]⟩, scalarScale 3, DType.bfloat16, linOff,
        GemmInputRole.INPUT, none⟩]) ∧
    resultIsError (index_put_fp8
      ⟨⟨[1], DType.float8e4m3, [1]⟩, scalarScale 2, DType.bfloat16, linOff,
        GemmInputRole.INPUT, none⟩
      ⟨⟨[1], DType.float8e4m3, [1]⟩, scalarScale 3, DType.bfloat16, linOff,
        GemmInputRole.INPUT, none⟩ [0]) ∧
    index_put_fp8
      ⟨⟨[2], DType.float8e4m3, [1, 2]⟩, scalarScale 2, DType.bfloat16, linOff,
        GemmInputRole.INPUT, none⟩
      ⟨⟨[1], DType.float8e4m3, [5]⟩, scalarScale 2, DType.bfloat16, linEmu,
        GemmInputRole.WEIGHT, none⟩ [0] =
    index_put_fp8
      ⟨⟨[2], DType.float8e4m3, [1, 2]⟩, scalarScale 2, DType.bfloat16, linOff,
        GemmInputRole.INPUT, none⟩
      ⟨⟨[1], DType.float8e4m3, [5]⟩, scalarScale 2, DType.bfloat16, linOff,
        GemmInputRole.INPUT, none⟩ [0] :=
  ⟨c4_checks_amended.1 _ _ (by decide),
   c4_checks_amended.2.1 _ _ (by decide),
   c4_checks_amended.2.2.1 _ _ [0] (by decide),
   c4_checks_amended.2.2.2
     ⟨⟨[2], DType.float8e4m3, [1, 2]⟩, scalarScale 2, DType.bfloat16, linOff,
       GemmInputRole.INPUT, none⟩
     ⟨⟨[1], DType.float8e4m3, [5]⟩, scalarScale 2, DType.bfloat16, linOff,
       GemmInputRole.INPUT, none⟩ [0] linEmu GemmInputRole.WEIGHT⟩

/-- C6: concatenating `Float8TrainingTensors` two of which carry different
scale values raises the invariant-violation error; concatenating tensors that
all share the first operand's scale (and origin dtype, mm config, raw dtype,
gemm role, with tensorwise scaling) produces the concatenation of the raw
data under the shared scale. -/
theorem c6_cat_scale (t0 : Float8TrainingTensor) (rest : List Float8TrainingTensor) :
    ((∃ c1 ∈ t0 :: rest, ∃ c2 ∈ t0 :: rest, c1.scale ≠ c2.scale) →
      resultIsError (float8_cat (t0 :: rest))) ∧
    ((∀ c ∈ t0 :: rest, c.origDtype = t0.origDtype ∧ c.scale = t0.scale ∧
        c.linearMMConfig = t0.linearMMConfig ∧ c.data.dtype = t0.data.dtype ∧
        c.gemmInputRole = t0.gemmInputRole ∧ tensorwiseScale c.scale) →
      float8_cat (t0 :: rest) =
        .ok ⟨⟨catShape0 ((t0 :: rest).map (fun c => c.data.shape)), t0.data.dtype,
          ((t0 :: rest).map (fun c => c.data.data)).flatten⟩, t0.scale, t0.origDtype,
          t0.linearMMConfig, t0.gemmInputRole, none⟩) := by
  constructor
  · rintro ⟨c1, hc1, c2, hc2, hne⟩
    rcases hc : catChecks t0.origDtype t0.scale t0.linearMMConfig t0.data.dtype
        t0.gemmInputRole (t0 :: rest) with e | ds
    · simp [float8_cat, hc, resultIsError]
    · exfalso
      have hmem := catChecks_ok_mem _ _ _ _ _ _ ds hc
      exact hne (((hmem c1 hc1).2.1).trans ((hmem c2 hc2).2.1).symm)
  · intro hall
    have hok := catChecks_ok_of_eq t0.origDtype t0.scale t0.linearMMConfig t0.data.dtype
      t0.gemmInputRole (t0 :: rest) hall
    simp [float8_cat, hok]

/-- Witness for C6: concatenating scale-2 and scale-3 tensors errors, while
two scale-2 tensors concatenate into the flattened raw data with scale 2. -/
theorem c6_cat_scale_witness :
    resultIsError (float8_cat
      [⟨⟨[1], DType.float8e4m3, [1]⟩, scalarScale 2, DType.bfloat16, linOff,
        GemmInputRole.INPUT, none⟩,
       ⟨⟨[1], DType.float8e4m3, [4]⟩, scalarScale 3, DType.bfloat16, linOff,
        GemmInputRole.INPUT, none⟩]) ∧
    float8_cat
      [⟨⟨[1], DType.float8e4m3, [1]⟩, scalarScale 2, DType.bfloat16, linOff,
        GemmInputRole.INPUT, none⟩,
       ⟨⟨[1], DType.float8e4m3, [7]⟩, scalarScale 2, DType.bfloat16, linOff,
        GemmInputRole.INPUT, none⟩] =
      .ok ⟨⟨[2], DType.float8e4m3, [1, 7]⟩, scalarScale 2, DType.bfloat16, linOff,
        GemmInputRole.INPUT, none⟩ :=
  ⟨(c6_cat_scale
      ⟨⟨[1], DType.float8e4m3, [1]⟩, scalarScale 2, DType.bfloat16, linOff,
        GemmInputRole.INPUT, none⟩
      [⟨⟨[1], DType.float8e4m3, [4]⟩, scalarScale 3, DType.bfloat16, linOff,
        GemmInputRole.INPUT, none⟩]).1
    ⟨⟨⟨[1], DType.float8e4m3, [1]⟩, scalarScale 2, DType.bfloat16, linOff,
        GemmInputRole.INPUT, none⟩, by simp,
      ⟨⟨[1], DType.float8e4m3, [4]⟩, scalarScale 3, DType.bfloat16, linOff,
        GemmInputRole.INPUT, none⟩, by simp, by decide⟩,
   by
    have h := (c6_cat_scale
      ⟨⟨[1], DType.float8e4m3, [1]⟩, scalarScale 2, DType.bfloat16, linOff,
        GemmInputRole.INPUT, none⟩
      [⟨⟨[1], DType.float8e4m3, [7]⟩, scalarScale 2, DType.bfloat16, linOff,
        GemmInputRole.INPUT, none⟩]).2 (by decide)
    simpa using h⟩

theorem resolveShape_prod (numel : Nat) (s : List Int) (s2 : List Nat)
    (h : resolveShape numel s = some s2) : s2.prod = numel := by
  simp only [resolveShape] at h
  split_ifs at h with h1 h2 h3 h4 h5
  all_goals rw [← Option.some.inj h]
  all_goals assumption

theorem resolveShape_self (l : List Nat) :
    resolveShape l.prod (l.map Int.ofNat) = some l := by
  have h1 : ((l.map Int.ofNat).any fun d => decide (d < -1)) = false := by
    rw [List.any_eq_false]
    intro d hd
    obtain ⟨x, _, rfl⟩ := List.mem_map.mp hd
    simp only [decide_eq_true_eq]
    have hnn : (0 : Int) ≤ Int.ofNat x := Int.ofNat_nonneg x
    omega
  have h2 : (l.map Int.ofNat).filter (fun d => decide (d = -1)) = [] := by
    rw [List.filter_eq_nil_iff]
    intro d hd
    obtain ⟨x, _, rfl⟩ := List.mem_map.mp hd
    simp
  have h6 : ∀ q : Nat,
      ((l.map Int.ofNat).map fun d => if d = -1 then q else d.toNat) = l := by
    intro q
    rw [List.map_map]
    have hcong : ∀ x ∈ l, (if (Int.ofNat x : Int) = -1 then q else (Int.ofNat x).toNat) = x := by
      intro x _
      rw [if_neg (by simp)]
      simp
    calc (l.map fun x => if (Int.ofNat x : Int) = -1 then q else (Int.ofNat x).toNat)
        = l.map id := List.map_congr_left hcong
      _ = l := List.map_id l
  unfold resolveShape
  rw [h1, if_neg Bool.false_ne_true, h2]
  rw [if_neg (by simp)]
  dsimp only
  rw [h6, if_pos rfl]

theorem resolveShape_pos (n : Nat) (s : List Int) (s2 : List Nat)
    (hpos : ∀ d ∈ s, 0 < d) (h : resolveShape n s = some s2) :
    s2 = s.map Int.toNat := by
  have hmap : ∀ q : Nat, (s.map fun d => if d = -1 then q else d.toNat) = s.map Int.toNat := by
    intro q
    apply List.map_congr_left
    intro a ha
    rw [if_neg]
    have := hpos a ha
    omega
  simp only [resolveShape] at h
  split_ifs at h with h1 h2 h3 h4 h5
  all_goals rw [← Option.some.inj h, hmap]

/-- C8: for a tensorwise-scaled `Float8TrainingTensor`, viewing to a
compatible shape and viewing the result back to the original shape yields a
tensor whose raw data and scale are identical to the original. -/
theorem c8_view_roundtrip (t : Float8TrainingTensor) (shapeA : List Int) (s2 : List Nat)
    (hts : t.scale.shape.length < 2)
    (hres : resolveShape t.data.shape.prod shapeA = some s2) :
    ∃ t2, (float8_view t shapeA).bind
        (fun t1 => float8_view t1 (t.data.shape.map Int.ofNat)) = .ok t2 ∧
      t2.data = t.data ∧ t2.scale = t.scale := by
  have htw : tensorwiseScale t.scale := by
    unfold tensorwiseScale
    omega
  have hself : resolveShape t.data.shape.prod (t.data.shape.map Int.ofNat)
      = some t.data.shape := resolveShape_self t.data.shape
  by_cases hA : shapeA = t.data.shape.map Int.ofNat
  · subst hA
    have hv : t.data.view (t.data.shape.map Int.ofNat) = .ok t.data := by
      unfold Tensor.view
      rw [hself]
    have hstep : float8_view t (t.data.shape.map Int.ofNat) = .ok t := by
      unfold float8_view
      rw [if_pos rfl, hv]
    refine ⟨t, ?_, rfl, rfl⟩
    rw [hstep]
    exact hstep
  · have hv1 : t.data.view shapeA = .ok { t.data with shape := s2 } := by
      unfold Tensor.view
      rw [hres]
    have hstep1 : float8_view t shapeA =
        .ok ⟨{ t.data with shape := s2 }, t.scale, t.origDtype, t.linearMMConfig,
          t.gemmInputRole, none⟩ := by
      unfold float8_view float8_desugar_op
      rw [if_neg hA, if_pos hts, if_pos htw]
      dsimp only
      rw [hv1]
    have hprod2 : ({ t.data with shape := s2 } : Tensor).shape.prod
        = t.data.shape.prod := resolveShape_prod _ _ _ hres
    have hv2 : ({ t.data with shape := s2 } : Tensor).view (t.data.shape.map Int.ofNat)
        = .ok t.data := by
      unfold Tensor.view
      rw [hprod2, hself]
    by_cases hB : t.data.shape.map Int.ofNat = s2.map Int.ofNat
    · refine ⟨⟨t.data, t.scale, t.origDtype, t.linearMMConfig, t.gemmInputRole, none⟩,
        ?_, rfl, rfl⟩
      rw [hstep1]
      show float8_view ⟨{ t.data with shape := s2 }, t.scale, t.origDtype,
        t.linearMMConfig, t.gemmInputRole, none⟩ (t.data.shape.map Int.ofNat) = _
      unfold float8_view
      dsimp only
      rw [if_pos hB, hv2]
    · refine ⟨⟨t.data, t.scale, t.origDtype, t.linearMMConfig, t.gemmInputRole, none⟩,
        ?_, rfl, rfl⟩
      rw [hstep1]
      show float8_view ⟨{ t.data with shape := s2 }, t.scale, t.origDtype,
        t.linearMMConfig, t.gemmInputRole, none⟩ (t.data.shape.map Int.ofNat) = _
      unfold float8_view float8_desugar_op
      dsimp only
      rw [if_neg hB, if_pos hts, if_pos htw, hv2]

/-- Witness for C8: the 2-by-3 tensor viewed as 3-by-2 and back keeps its raw
data and scale. -/
theorem c8_view_roundtrip_witness :
    ∃ t2, (float8_view
        ⟨⟨[2, 3], DType.float8e4m3, [1, 2, 3, 4, 5, 6]⟩, scalarScale 2, DType.bfloat16,
          linOff, GemmInputRole.INPUT, none⟩ [3, 2]).bind
      (fun t1 => float8_view t1
        ((⟨⟨[2, 3], DType.float8e4m3, [1, 2, 3, 4, 5, 6]⟩, scalarScale 2, DType.bfloat16,
          linOff, GemmInputRole.INPUT, none⟩ : Float8TrainingTensor).data.shape.map
          Int.ofNat)) = .ok t2 ∧
      t2.data = (⟨⟨[2, 3], DType.float8e4m3, [1, 2, 3, 4, 5, 6]⟩, scalarScale 2,
        DType.bfloat16, linOff, GemmInputRole.INPUT, none⟩ :
          Float8TrainingTensor).data ∧
      t2.scale = (⟨⟨[2, 3], DType.float8e4m3, [1, 2, 3, 4, 5, 6]⟩, scalarScale 2,
        DType.bfloat16, linOff, GemmInputRole.INPUT, none⟩ :
          Float8TrainingTensor).scale :=
  c8_view_roundtrip
    ⟨⟨[2, 3], DType.float8e4m3, [1, 2, 3, 4, 5, 6]⟩, scalarScale 2, DType.bfloat16,
      linOff, GemmInputRole.INPUT, none⟩ [3, 2] [3, 2] (by decide) (by decide)

/-- Counterexample for C3: viewing a 4-by-6 axiswise(0)-scaled tensor to
`[8, -1]` (a two-dimensional target) succeeds and returns data of shape
`[8, 3]` paired with a scale still of shape `[1, 6]` — not `(1, new_cols)`
with `new_cols = 3`, and no error is raised, because the `-1` makes the
scale reshape to `[1, -1]` silently keep the old column count. -/
theorem c3_view_counterexample :
    float8_view
      ⟨⟨[4, 6], DType.float8e4m3, (List.range 24).map (fun i => (i : ℚ))⟩,
        ⟨[1, 6], DType.float32, [1, 2, 3, 4, 5, 6]⟩, DType.bfloat16, linOff,
        GemmInputRole.INPUT, some 0⟩ [8, -1] =
      .ok ⟨⟨[8, 3], DType.float8e4m3, (List.range 24).map (fun i => (i : ℚ))⟩,
        ⟨[1, 6], DType.float32, [1, 2, 3, 4, 5, 6]⟩, DType.bfloat16, linOff,
        GemmInputRole.INPUT, some 0⟩ ∧
    ([1, 6] : List Nat) ≠ [1, 3] := by
  constructor
  · decide
  · decide

/-- C3 (amended): for a view of a 2-D-scaled `Float8TrainingTensor` to a
different shape whose entries are all positive: a two-dimensional target with
axiswise marker 0 whose underlying data and scale reshapes succeed yields a
scale of shape `(1, new_cols)` with the marker preserved as 0; a
two-dimensional target with the marker on the last axis yields a scale of
shape `(new_rows, 1)` with the marker normalised to `-1`; every other target
shape or axis combination raises the error naming the attempted shapes and
axis. -/
theorem c3_view_axiswise_amended (t : Float8TrainingTensor) (new_shape : List Int)
    (hrank : t.scale.shape.length = 2)
    (hneq : new_shape ≠ t.data.shape.map Int.ofNat)
    (hpos : ∀ d ∈ new_shape, 0 < d) :
    (∀ nd ns, new_shape.length = 2 → t.axiswiseDim = some 0 →
      t.data.view new_shape = .ok nd →
      t.scale.view [1, new_shape.getD 1 0] = .ok ns →
      float8_view t new_shape =
        .ok ⟨nd, ns, t.origDtype, t.linearMMConfig, t.gemmInputRole, some 0⟩ ∧
      ns.shape = [1, (new_shape.getD 1 0).toNat]) ∧
    (∀ nd ns, new_shape.length = 2 → ¬t.axiswiseDim = some 0 →
      (t.axiswiseDim = some (-1) ∨
        t.axiswiseDim = some ((t.data.shape.length : Int) - 1)) →
      t.data.view new_shape = .ok nd →
      t.scale.view [new_shape.getD 0 0, 1] = .ok ns →
      float8_view t new_shape =
        .ok ⟨nd, ns, t.origDtype, t.linearMMConfig, t.gemmInputRole, some (-1)⟩ ∧
      ns.shape = [(new_shape.getD 0 0).toNat, 1]) ∧
    (¬(new_shape.length = 2 ∧ (t.axiswiseDim = some 0 ∨ t.axiswiseDim = some (-1) ∨
        t.axiswiseDim = some ((t.data.shape.length : Int) - 1))) →
      float8_view t new_shape = .error (float8ViewErrMsg t new_shape)) := by
  have hlt : ¬(t.scale.shape.length < 2) := by omega
  refine ⟨?_, ?_, ?_⟩
  · intro nd ns h2 hax hvd hvs
    obtain ⟨a, b, rfl⟩ : ∃ a b, new_shape = [a, b] := by
      match new_shape, h2 with
      | [a, b], _ => exact ⟨a, b, rfl⟩
    constructor
    · unfold float8_view
      rw [if_neg hneq, if_neg hlt, if_pos ⟨rfl, hax⟩]
      rw [hvd, hvs, hax]
    · have hvs2 : t.scale.view [1, b] = .ok ns := hvs
      unfold Tensor.view at hvs2
      rcases hrs : resolveShape t.scale.shape.prod [1, b] with _ | s2
      · rw [hrs] at hvs2
        exact absurd hvs2 (by simp)
      · rw [hrs] at hvs2
        cases hvs2
        have hp2 : ∀ d ∈ [(1 : Int), b], 0 < d := by
          intro d hd
          rcases List.mem_cons.mp hd with rfl | hd2
          · norm_num
          · have hb := List.mem_singleton.mp hd2
            subst hb
            exact hpos d (by simp)
        exact resolveShape_pos _ _ _ hp2 hrs
  · intro nd ns h2 hax0 hax hvd hvs
    obtain ⟨a, b, rfl⟩ : ∃ a b, new_shape = [a, b] := by
      match new_shape, h2 with
      | [a, b], _ => exact ⟨a, b, rfl⟩
    constructor
    · unfold float8_view
      rw [if_neg hneq, if_neg hlt, if_neg (fun hc => hax0 hc.2), if_pos ⟨rfl, hax⟩]
      rw [hvd, hvs]
    · have hvs2 : t.scale.view [a, 1] = .ok ns := hvs
      unfold Tensor.view at hvs2
      rcases hrs : resolveShape t.scale.shape.prod [a, 1] with _ | s2
      · rw [hrs] at hvs2
        exact absurd hvs2 (by simp)
      · rw [hrs] at hvs2
        cases hvs2
        have hp2 : ∀ d ∈ [a, (1 : Int)], 0 < d := by
          intro d hd
          rcases List.mem_cons.mp hd with rfl | hd2
          · exact hpos d (by simp)
          · have hb := List.mem_singleton.mp hd2
            subst hb
            norm_num
        exact resolveShape_pos _ _ _ hp2 hrs
  · intro h3
    unfold float8_view
    rw [if_neg hneq, if_neg hlt, if_neg (fun hc => h3 ⟨hc.1, Or.inl hc.2⟩),
      if_neg (fun hc => h3 ⟨hc.1, Or.inr hc.2⟩)]

/-- Witness for C3 (amended): a 2-by-3-by-4 tensor with axiswise marker 0
views to `[4, 6]` keeping scale `(1, 6)` and marker 0; with marker `-1` and a
`(4, 1)` scale it views to `[4, 6]` with scale `(4, 1)` and marker `-1`; a
three-dimensional target raises the naming error. -/
theorem c3_view_axiswise_amended_witness :
    (float8_view
        ⟨⟨[2, 3, 4], DType.float8e4m3, (List.range 24).map (fun i => (i : ℚ))⟩,
          ⟨[1, 6], DType.float32, [1, 2, 3, 4, 5, 6]⟩, DType.bfloat16, linOff,
          GemmInputRole.INPUT, some 0⟩ [4, 6] =
      .ok ⟨⟨[4, 6], DType.float8e4m3, (List.range 24).map (fun i => (i : ℚ))⟩,
        ⟨[1, 6], DType.float32, [1, 2, 3, 4, 5, 6]⟩, DType.bfloat16, linOff,
        GemmInputRole.INPUT, some 0⟩ ∧
      (⟨[1, 6], DType.float32, [1, 2, 3, 4, 5, 6]⟩ : Tensor).shape = [1, 6]) ∧
    (float8_view
        ⟨⟨[2, 3, 4], DType.float8e4m3, (List.range 24).map (fun i => (i : ℚ))⟩,
          ⟨[4, 1], DType.float32, [1, 2, 3, 4]⟩, DType.bfloat16, linOff,
          GemmInputRole.INPUT, some (-1)⟩ [4, 6] =
      .ok ⟨⟨[4, 6], DType.float8e4m3, (List.range 24).map (fun i => (i : ℚ))⟩,
        ⟨[4, 1], DType.float32, [1, 2, 3, 4]⟩, DType.bfloat16, linOff,
        GemmInputRole.INPUT, some (-1)⟩ ∧
      (⟨[4, 1], DType.float32, [1, 2, 3, 4]⟩ : Tensor).shape = [4, 1]) ∧
    float8_view
      ⟨⟨[2, 3, 4], DType.float8e4m3, (List.range 24).map (fun i => (i : ℚ))⟩,
        ⟨[1, 6], DType.float32, [1, 2, 3, 4, 5, 6]⟩, DType.bfloat16, linOff,
        GemmInputRole.INPUT, some 0⟩ [24, 1, 1] =
      .error (float8ViewErrMsg
        ⟨⟨[2, 3, 4], DType.float8e4m3, (List.range 24).map (fun i => (i : ℚ))⟩,
          ⟨[1, 6], DType.float32, [1, 2, 3, 4, 5, 6]⟩, DType.bfloat16, linOff,
          GemmInputRole.INPUT, some 0⟩ [24, 1, 1]) :=
  ⟨(c3_view_axiswise_amended
      ⟨⟨[2, 3, 4], DType.float8e4m3, (List.range 24).map (fun i => (i : ℚ))⟩,
        ⟨[1, 6], DType.float32, [1, 2, 3, 4, 5, 6]⟩, DType.bfloat16, linOff,
        GemmInputRole.INPUT, some 0⟩ [4, 6] (by decide) (by decide) (by decide)).1
    ⟨[4, 6], DType.float8e4m3, (List.range 24).map (fun i => (i : ℚ))⟩
    ⟨[1, 6], DType.float32, [1, 2, 3, 4, 5, 6]⟩ rfl rfl (by decide) (by decide),
   (c3_view_axiswise_amended
      ⟨⟨[2, 3, 4], DType.float8e4m3, (List.range 24).map (fun i => (i : ℚ))⟩,
        ⟨[4, 1], DType.float32, [1, 2, 3, 4]⟩, DType.bfloat16, linOff,
        GemmInputRole.INPUT, some (-1)⟩ [4, 6] (by decide) (by decide) (by decide)).2.1
    ⟨[4, 6], DType.float8e4m3, (List.range 24).map (fun i => (i : ℚ))⟩
    ⟨[4, 1], DType.float32, [1, 2, 3, 4]⟩ rfl (by decide) (Or.inl rfl)
    (by decide) (by decide),
   (c3_view_axiswise_amended
      ⟨⟨[2, 3, 4], DType.float8e4m3, (List.range 24).map (fun i => (i : ℚ))⟩,
        ⟨[1, 6], DType.float32, [1, 2, 3, 4, 5, 6]⟩, DType.bfloat16, linOff,
        GemmInputRole.INPUT, some 0⟩ [24, 1, 1] (by decide) (by decide)
      (by decide)).2.2 (by decide)⟩

/-- C1: for row-wise scaled operands (`a_scale : (m, 1)`, `b_scale : (1, n)`)
without fast accumulation, `addmm_float8_unwrapped` invokes the accelerated
primitive with both operand inverse scales replaced by one-valued scalars and
returns the primitive's output multiplied elementwise by the product of the
reciprocals of the two original scales (composed with the float16/float32
output-dtype workaround's final cast). -/
theorem c1_rowwise_rescale (prim : ScaledMMPrim)
    (a_data a_scale b_data b_scale : Tensor) (odt : DType)
    (oscale bias : Option Tensor) (m k n : Nat)
    (ha : a_data.shape = [m, k]) (has : a_scale.shape = [m, 1])
    (hb : b_data.shape = [k, n]) (hbs : b_scale.shape = [1, n]) :
    addmm_float8_unwrapped prim a_data a_scale b_data b_scale odt oscale bias false =
      (if odt = DType.float16 ∨ odt = DType.float32 then
        ((prim a_data b_data a_scale.reciprocal.newOnesScalar
            a_scale.reciprocal.newOnesScalar bias oscale DType.bfloat16 false).mul
          (bcastMulRowCol a_scale.reciprocal b_scale.reciprocal)).castTo odt
      else
        (prim a_data b_data a_scale.reciprocal.newOnesScalar
            a_scale.reciprocal.newOnesScalar bias oscale odt false).mul
          (bcastMulRowCol a_scale.reciprocal b_scale.reciprocal)) := by
  have hrow : a_scale.shape = [a_data.shape.getD 0 0, 1] ∧
      b_scale.shape = [1, b_data.shape.getD 1 0] := by
    constructor
    · rw [ha]
      exact has
    · rw [hb]
      exact hbs
  have hc1 : (a_scale.shape = [a_data.shape.getD 0 0, 1] ∧
      b_scale.shape = [1, b_data.shape.getD 1 0]) ∧ (false = false) := ⟨hrow, rfl⟩
  unfold addmm_float8_unwrapped
  dsimp only
  rw [if_pos hc1, if_pos hc1, if_pos hc1]
  by_cases hdt : odt = DType.float16 ∨ odt = DType.float32
  · have hc2 : (odt = DType.float16 ∨ odt = DType.float32) ∧
        (a_scale.shape = [a_data.shape.getD 0 0, 1] ∧
          b_scale.shape = [1, b_data.shape.getD 1 0]) := ⟨hdt, hrow⟩
    rw [if_pos hc2, if_pos hc2]
    rw [if_neg (show ¬(DType.bfloat16 = DType.float32) by simp),
      if_neg (show ¬(DType.bfloat16 = DType.float32) by simp), if_pos hdt]
    rfl
  · have hc2 : ¬((odt = DType.float16 ∨ odt = DType.float32) ∧
        (a_scale.shape = [a_data.shape.getD 0 0, 1] ∧
          b_scale.shape = [1, b_data.shape.getD 1 0])) := fun hc => hdt hc.1
    have hodt : ¬(odt = DType.float32) := fun h => hdt (Or.inr h)
    rw [if_neg hc2, if_neg hc2, if_neg hodt, if_neg hodt, if_neg hdt]
    rfl

/-- Witness for C1 at 1-by-1 operands with scales 2 and 5: the primitive is
called with one-valued scalar scales and the result is its output divided by
10. -/
theorem c1_rowwise_rescale_witness :
    addmm_float8_unwrapped
      (fun ad bd sa sb _ _ dt _ =>
        ⟨[1, 1], dt, [ad.data.getD 0 0 * bd.data.getD 0 0 * sa.data.getD 0 0 *
          sb.data.getD 0 0]⟩)
      ⟨[1, 1], DType.float8e4m3, [6]⟩ ⟨[1, 1], DType.float32, [2]⟩
      ⟨[1, 1], DType.float8e4m3, [10]⟩ ⟨[1, 1], DType.float32, [5]⟩
      DType.bfloat16 none none false =
      (if DType.bfloat16 = DType.float16 ∨ DType.bfloat16 = DType.float32 then
        (((fun (ad bd sa sb : Tensor) (_ _ : Option Tensor) (dt : DType) (_ : Bool) =>
            (⟨[1, 1], dt, [ad.data.getD 0 0 * bd.data.getD 0 0 * sa.data.getD 0 0 *
              sb.data.getD 0 0]⟩ : Tensor))
            ⟨[1, 1], DType.float8e4m3, [6]⟩ ⟨[1, 1], DType.float8e4m3, [10]⟩
            (⟨[1, 1], DType.float32, [2]⟩ : Tensor).reciprocal.newOnesScalar
            (⟨[1, 1], DType.float32, [2]⟩ : Tensor).reciprocal.newOnesScalar
            none none DType.bfloat16 false).mul
          (bcastMulRowCol (⟨[1, 1], DType.float32, [2]⟩ : Tensor).reciprocal
            (⟨[1, 1], DType.float32, [5]⟩ : Tensor).reciprocal)).castTo DType.bfloat16
      else
        ((fun (ad bd sa sb : Tensor) (_ _ : Option Tensor) (dt : DType) (_ : Bool) =>
            (⟨[1, 1], dt, [ad.data.getD 0 0 * bd.data.getD 0 0 * sa.data.getD 0 0 *
              sb.data.getD 0 0]⟩ : Tensor))
            ⟨[1, 1], DType.float8e4m3, [6]⟩ ⟨[1, 1], DType.float8e4m3, [10]⟩
            (⟨[1, 1], DType.float32, [2]⟩ : Tensor).reciprocal.newOnesScalar
            (⟨[1, 1], DType.float32, [2]⟩ : Tensor).reciprocal.newOnesScalar
            none none DType.bfloat16 false).mul
          (bcastMulRowCol (⟨[1, 1], DType.float32, [2]⟩ : Tensor).reciprocal
            (⟨[1, 1], DType.float32, [5]⟩ : Tensor).reciprocal)) :=
  c1_rowwise_rescale
    (fun ad bd sa sb _ _ dt _ =>
      ⟨[1, 1], dt, [ad.data.getD 0 0 * bd.data.getD 0 0 * sa.data.getD 0 0 *
        sb.data.getD 0 0]⟩)
    ⟨[1, 1], DType.float8e4m3, [6]⟩ ⟨[1, 1], DType.float32, [2]⟩
    ⟨[1, 1], DType.float8e4m3, [10]⟩ ⟨[1, 1], DType.float32, [5]⟩
    DType.bfloat16 none none 1 1 1 rfl rfl rfl rfl

theorem preprocess_addmm_ok (chooseCfg : ChooseCfg) (a b : Float8TrainingTensor)
    (hk : a.data.shape.getD 1 0 = b.data.shape.getD 0 0) :
    preprocess_addmm chooseCfg a b =
      .ok
        (if (chooseCfg a.gemmInputRole a.linearMMConfig b.gemmInputRole
            b.linearMMConfig).pad_inner_dim then a.data.padDim1 else a.data,
         if a.axiswiseDim = none ∧ ¬(b.axiswiseDim = none) then
           a.scale.repeatReshapeCol
             ((if (chooseCfg a.gemmInputRole a.linearMMConfig b.gemmInputRole
               b.linearMMConfig).pad_inner_dim then a.data.padDim1 else
               a.data).shape.getD 0 0)
         else a.scale,
         if (chooseCfg a.gemmInputRole a.linearMMConfig b.gemmInputRole
            b.linearMMConfig).pad_inner_dim then b.data.padDim0 else b.data,
         if ¬(a.axiswiseDim = none) ∧ b.axiswiseDim = none then
           b.scale.repeatReshapeRow
             ((if (chooseCfg a.gemmInputRole a.linearMMConfig b.gemmInputRole
               b.linearMMConfig).pad_inner_dim then b.data.padDim0 else
               b.data).shape.getD 1 0)
         else b.scale) := by
  unfold preprocess_addmm
  rw [if_neg (fun hc => hc.2 hk)]

/-- C2: when the merged configuration requests emulation, `float8_mm` returns
the float32 matrix product of each operand's raw data divided by its scale,
cast to the left operand's origin dtype, independently of the accelerated
primitive; `float8_addmm` returns that emulated product plus the bias. -/
theorem c2_emulated_mm (chooseCfg : ChooseCfg) (prim : ScaledMMPrim)
    (a b : Float8TrainingTensor) (bias : Tensor)
    (hk : a.data.shape.getD 1 0 = b.data.shape.getD 0 0)
    (hemu : (chooseCfg a.gemmInputRole a.linearMMConfig b.gemmInputRole
      b.linearMMConfig).emulate = true)
    (hbias : bias.dtype = a.origDtype) :
    float8_mm chooseCfg prim a b =
      .ok (((a.data.float.divBcast a.scale).mm
        (b.data.float.divBcast b.scale)).castTo a.origDtype) ∧
    float8_addmm chooseCfg prim bias a b =
      .ok ((((a.data.float.divBcast a.scale).mm
        (b.data.float.divBcast b.scale)).castTo a.origDtype).add bias) := by
  constructor
  · unfold float8_mm
    rw [preprocess_addmm_ok chooseCfg a b hk]
    dsimp only
    rw [if_pos hemu]
  · unfold float8_addmm
    rw [preprocess_addmm_ok chooseCfg a b hk]
    dsimp only
    rw [if_neg (fun hc => hc hbias), if_pos hemu]

/-- Witness for C2 at 1-by-1 operands with scales 2 and 5 under an emulating
merged config: the result is (6/2)*(10/5) = 6 in the origin dtype, plus bias
1 for addmm. -/
theorem c2_emulated_mm_witness :
    float8_mm (fun _ la _ _ => la.output)
      (fun _ _ _ _ _ _ dt _ => (⟨[1, 1], dt, [99]⟩ : Tensor))
      ⟨⟨[1, 1], DType.float8e4m3, [6]⟩, scalarScale 2, DType.bfloat16, linEmu,
        GemmInputRole.INPUT, none⟩
      ⟨⟨[1, 1], DType.float8e4m3, [10]⟩, scalarScale 5, DType.bfloat16, linEmu,
        GemmInputRole.WEIGHT, none⟩ =
      .ok ((((⟨⟨[1, 1], DType.float8e4m3, [6]⟩, scalarScale 2, DType.bfloat16, linEmu,
          GemmInputRole.INPUT, none⟩ :
            Float8TrainingTensor).data.float.divBcast (scalarScale 2)).mm
        ((⟨⟨[1, 1], DType.float8e4m3, [10]⟩, scalarScale 5, DType.bfloat16, linEmu,
          GemmInputRole.WEIGHT, none⟩ :
            Float8TrainingTensor).data.float.divBcast (scalarScale 5))).castTo
          DType.bfloat16) ∧
    float8_addmm (fun _ la _ _ => la.output)
      (fun _ _ _ _ _ _ dt _ => (⟨[1, 1], dt, [99]⟩ : Tensor))
      ⟨[1], DType.bfloat16, [1]⟩
      ⟨⟨[1, 1], DType.float8e4m3, [6]⟩, scalarScale 2, DType.bfloat16, linEmu,
        GemmInputRole.INPUT, none⟩
      ⟨⟨[1, 1], DType.float8e4m3, [10]⟩, scalarScale 5, DType.bfloat16, linEmu,
        GemmInputRole.WEIGHT, none⟩ =
      .ok (((((⟨⟨[1, 1], DType.float8e4m3, [6]⟩, scalarScale 2, DType.bfloat16, linEmu,
          GemmInputRole.INPUT, none⟩ :
            Float8TrainingTensor).data.float.divBcast (scalarScale 2)).mm
        ((⟨⟨[1, 1], DType.float8e4m3, [10]⟩, scalarScale 5, DType.bfloat16, linEmu,
          GemmInputRole.WEIGHT, none⟩ :
            Float8TrainingTensor).data.float.divBcast (scalarScale 5))).castTo
          DType.bfloat16).add ⟨[1], DType.bfloat16, [1]⟩) :=
  c2_emulated_mm (fun _ la _ _ => la.output)
    (fun _ _ _ _ _ _ dt _ => (⟨[1, 1], dt, [99]⟩ : Tensor))
    ⟨⟨[1, 1], DType.float8e4m3, [6]⟩, scalarScale 2, DType.bfloat16, linEmu,
      GemmInputRole.INPUT, none⟩
    ⟨⟨[1, 1], DType.float8e4m3, [10]⟩, scalarScale 5, DType.bfloat16, linEmu,
      GemmInputRole.WEIGHT, none⟩
    ⟨[1], DType.bfloat16, [1]⟩ rfl (by decide) rfl

theorem addmm_float8_unwrapped_dtype (prim : ScaledMMPrim)
    (hprim : ∀ ad bd sa sb bs os dt fa, (prim ad bd sa sb bs os dt fa).dtype = dt)
    (a_data a_scale b_data b_scale : Tensor) (odt : DType)
    (oscale bias : Option Tensor) (fa : Bool) :
    (addmm_float8_unwrapped prim a_data a_scale b_data b_scale odt oscale bias
      fa).dtype = odt := by
  rcases bias with _ | pb
  all_goals
    unfold addmm_float8_unwrapped
    dsimp only
    split_ifs
    all_goals simp [Tensor.mul, Tensor.add, Tensor.castTo, hprim]

/-- C10: the matmul output dtype comes solely from the left operand's origin
dtype — both `float8_mm` and `float8_addmm` are unchanged when the right
operand's origin dtype is replaced by anything, and (for a primitive that
honours its requested output dtype) every successful result carries the left
operand's origin dtype. -/
theorem c10_output_dtype_left (chooseCfg : ChooseCfg) (prim : ScaledMMPrim)
    (a b : Float8TrainingTensor) (bias : Tensor) (d2 : DType)
    (hprim : ∀ ad bd sa sb bs os dt fa, (prim ad bd sa sb bs os dt fa).dtype = dt)
    (hk : a.data.shape.getD 1 0 = b.data.shape.getD 0 0)
    (hbias : bias.dtype = a.origDtype) :
    (float8_mm chooseCfg prim a { b with origDtype := d2 } =
      float8_mm chooseCfg prim a b) ∧
    (float8_addmm chooseCfg prim bias a { b with origDtype := d2 } =
      float8_addmm chooseCfg prim bias a b) ∧
    (∀ r, float8_mm chooseCfg prim a b = .ok r → r.dtype = a.origDtype) ∧
    (∀ r, float8_addmm chooseCfg prim bias a b = .ok r → r.dtype = a.origDtype) := by
  refine ⟨rfl, rfl, ?_, ?_⟩
  · intro r hr
    unfold float8_mm at hr
    rw [preprocess_addmm_ok chooseCfg a b hk] at hr
    dsimp only at hr
    by_cases hemu : (chooseCfg a.gemmInputRole a.linearMMConfig b.gemmInputRole
        b.linearMMConfig).emulate = true
    · rw [if_pos hemu] at hr
      cases hr
      simp [Tensor.castTo]
    · rw [if_neg hemu] at hr
      cases hr
      exact addmm_float8_unwrapped_dtype prim hprim _ _ _ _ _ _ _ _
  · intro r hr
    unfold float8_addmm at hr
    rw [preprocess_addmm_ok chooseCfg a b hk] at hr
    dsimp only at hr
    rw [if_neg (fun hc => hc hbias)] at hr
    by_cases hemu : (chooseCfg a.gemmInputRole a.linearMMConfig b.gemmInputRole
        b.linearMMConfig).emulate = true
    · rw [if_pos hemu] at hr
      cases hr
      simp [Tensor.add, Tensor.castTo]
    · rw [if_neg hemu] at hr
      cases hr
      exact addmm_float8_unwrapped_dtype prim hprim _ _ _ _ _ _ _ _

/-- Witness for C10: replacing the right operand's origin dtype by float64
leaves the matmul results unchanged, and every successful result carries the
left operand's bfloat16 origin dtype. -/
theorem c10_output_dtype_left_witness :
    (float8_mm (fun _ la _ _ => la.output)
      (fun _ _ _ _ _ _ dt _ => (⟨[1, 1], dt, [99]⟩ : Tensor))
      ⟨⟨[1, 1], DType.float8e4m3, [6]⟩, scalarScale 2, DType.bfloat16, linOff,
        GemmInputRole.INPUT, none⟩
      { (⟨⟨[1, 1], DType.float8e4m3, [10]⟩, scalarScale 5, DType.float16, linOff,
          GemmInputRole.WEIGHT, none⟩ : Float8TrainingTensor) with
        origDtype := DType.float64 } =
     float8_mm (fun _ la _ _ => la.output)
      (fun _ _ _ _ _ _ dt _ => (⟨[1, 1], dt, [99]⟩ : Tensor))
      ⟨⟨[1, 1], DType.float8e4m3, [6]⟩, scalarScale 2, DType.bfloat16, linOff,
        GemmInputRole.INPUT, none⟩
      ⟨⟨[1, 1], DType.float8e4m3, [10]⟩, scalarScale 5, DType.float16, linOff,
        GemmInputRole.WEIGHT, none⟩) ∧
    (float8_addmm (fun _ la _ _ => la.output)
      (fun _ _ _ _ _ _ dt _ => (⟨[1, 1], dt, [99]⟩ : Tensor))
      ⟨[1], DType.bfloat16, [1]⟩
      ⟨⟨[1, 1], DType.float8e4m3, [6]⟩, scalarScale 2, DType.bfloat16, linOff,
        GemmInputRole.INPUT, none⟩
      { (⟨⟨[1, 1], DType.float8e4m3, [10]⟩, scalarScale 5, DType.float16, linOff,
          GemmInputRole.WEIGHT, none⟩ : Float8TrainingTensor) with
        origDtype := DType.float64 } =
     float8_addmm (fun _ la _ _ => la.output)
      (fun _ _ _ _ _ _ dt _ => (⟨[1, 1], dt, [99]⟩ : Tensor))
      ⟨[1], DType.bfloat16, [1]⟩
      ⟨⟨[1, 1], DType.float8e4m3, [6]⟩, scalarScale 2, DType.bfloat16, linOff,
        GemmInputRole.INPUT, none⟩
      ⟨⟨[1, 1], DType.float8e4m3, [10]⟩, scalarScale 5, DType.float16, linOff,
        GemmInputRole.WEIGHT, none⟩) ∧
    (∀ r, float8_mm (fun _ la _ _ => la.output)
      (fun _ _ _ _ _ _ dt _ => (⟨[1, 1], dt, [99]⟩ : Tensor))
      ⟨⟨[1, 1], DType.float8e4m3, [6]⟩, scalarScale 2, DType.bfloat16, linOff,
        GemmInputRole.INPUT, none⟩
      ⟨⟨[1, 1], DType.float8e4m3, [10]⟩, scalarScale 5, DType.float16, linOff,
        GemmInputRole.WEIGHT, none⟩ = .ok r → r.dtype = DType.bfloat16) ∧
    (∀ r, float8_addmm (fun _ la _ _ => la.output)
      (fun _ _ _ _ _ _ dt _ => (⟨[1, 1], dt, [99]⟩ : Tensor))
      ⟨[1], DType.bfloat16, [1]⟩
      ⟨⟨[1, 1], DType.float8e4m3, [6]⟩, scalarScale 2, DType.bfloat16, linOff,
        GemmInputRole.INPUT, none⟩
      ⟨⟨[1, 1], DType.float8e4m3, [10]⟩, scalarScale 5, DType.float16, linOff,
        GemmInputRole.WEIGHT, none⟩ = .ok r → r.dtype = DType.bfloat16) :=
  c10_output_dtype_left (fun _ la _ _ => la.output)
    (fun _ _ _ _ _ _ dt _ => (⟨[1, 1], dt, [99]⟩ : Tensor))
    ⟨⟨[1, 1], DType.float8e4m3, [6]⟩, scalarScale 2, DType.bfloat16, linOff,
      GemmInputRole.INPUT, none⟩
    ⟨⟨[1, 1], DType.float8e4m3, [10]⟩, scalarScale 5, DType.float16, linOff,
      GemmInputRole.WEIGHT, none⟩
    ⟨[1], DType.bfloat16, [1]⟩ DType.float64
    (fun _ _ _ _ _ _ _ _ => rfl) rfl rfl
